import Mathlib

/-!
Verification of the `seg_n.py` model-definition script (cell detector for
image segmentation).

The script declares a Keras computation graph: a reusable residual block
and a U-Net-like encoder-decoder assembled in `cell_detector`, plus a
smoke test under `__main__`.  We embed the graph declaration shallowly:
a build state accumulates layer nodes (a node's id is its position in the
list), and each symbolic tensor carries its statically inferred shape
`(h, w, c)` (spatial height, width, channels; the batch dimension is never
constrained by any of these layers and is not modelled).  Shape inference
follows the Keras layer semantics: `conv_output_length` for Conv2D and
AveragePooling2D, elementwise broadcasting for `Add`, exact spatial match
for `concatenate(axis = -1)`.  A shape of `none` models a layer whose
construction raises a shape error.
-/

/-- Static shape of a feature tensor: height, width, channels. -/
structure Shape3 where
  h : Nat
  w : Nat
  c : Nat
deriving DecidableEq, Repr

/-- Padding mode of a Conv2D / pooling layer. -/
inductive Padding where
  | same
  | valid
deriving DecidableEq, Repr

/-- One Keras layer kind, with its hyperparameters as declared in the
source (`filters`, `kernel_size`, `strides`, `padding`, `name`, dropout
`rate`, Lambda scaling factor, pool and upsampling sizes, concat axis). -/
inductive LayerOp where
  | input (sh : Shape3)
  | elu
  | conv2d (filters kh kw s1 s2 : Nat) (pad : Padding) (nm : Option String)
  | dropout (rate : ℚ)
  | lambdaScale (factor : ℚ)
  | add
  | averagePooling2d (ph pw s1 s2 : Nat) (pad : Padding)
  | upSampling2d (uh uw : Nat) (interpolation : String)
  | concat (axis : Int)
deriving DecidableEq, Repr

/-- A node of the declared graph: the layer and the ids of its inputs. -/
structure Node where
  op : LayerOp
  inputs : List Nat
deriving DecidableEq, Repr

/-- A symbolic tensor: the id of the node producing it and its inferred
static shape (`none` once a shape error has occurred). -/
structure Tensor where
  id : Nat
  shape : Option Shape3
deriving DecidableEq, Repr

/-- The build state: the declared nodes so far and the lines written to
standard output so far. -/
structure BuildState where
  nodes : List Node
  printed : List String
deriving DecidableEq, Repr

/-- Fresh build state (as after `tf.reset_default_graph()`). -/
def emptyBuild : BuildState := { nodes := [], printed := [] }

/-- The model object returned by `cell_detector`: its input layer, output
tensor and name. -/
structure NetModel where
  inputId : Nat
  inputShape : Shape3
  output : Tensor
  name : String
deriving DecidableEq, Repr

/-- Keras `conv_utils.conv_output_length` (stride positive, dilation 1):
for `same` padding the output length is `ceil(len / stride)`; for `valid`
it is `(len - filter + 1 + stride - 1) // stride` with Python floor
division (hence the `Int.fdiv`). -/
def conv_output_length (len filterSize stride : Nat) (pad : Padding) : Nat :=
  match pad with
  | .same => (len + stride - 1) / stride
  | .valid => (Int.fdiv ((len : Int) - filterSize + 1 + stride - 1) stride).toNat

/-- Output shape of `Conv2D(filters, (kh, kw), strides=(s1, s2), padding)`. -/
def convShape (filters kh kw s1 s2 : Nat) (pad : Padding) (o : Option Shape3) : Option Shape3 :=
  o.map fun a => ⟨conv_output_length a.h kh s1 pad, conv_output_length a.w kw s2 pad, filters⟩

/-- Output shape of `AveragePooling2D(pool_size=(ph, pw), strides=(s1, s2))`. -/
def poolShape (ph pw s1 s2 : Nat) (pad : Padding) (o : Option Shape3) : Option Shape3 :=
  o.map fun a => ⟨conv_output_length a.h ph s1 pad, conv_output_length a.w pw s2 pad, a.c⟩

/-- Output shape of `UpSampling2D(size=(uh, uw))`. -/
def upsampleShape (uh uw : Nat) (o : Option Shape3) : Option Shape3 :=
  o.map fun a => ⟨a.h * uh, a.w * uw, a.c⟩

/-- Elementwise broadcasting of one dimension, as in Keras
`_Merge._compute_elemwise_op_output_shape`: dimensions must be equal or
one of them must be 1, otherwise the layer raises. -/
def broadcastDim (i j : Nat) : Option Nat :=
  if i = 1 then some j
  else if j = 1 then some i
  else if i = j then some i
  else none

/-- Output shape of `Add()([a, b])` (elementwise merge with broadcasting). -/
def addShape (o1 o2 : Option Shape3) : Option Shape3 :=
  o1.bind fun a => o2.bind fun b =>
    (broadcastDim a.h b.h).bind fun h =>
      (broadcastDim a.w b.w).bind fun w =>
        (broadcastDim a.c b.c).map fun c => ⟨h, w, c⟩

/-- Output shape of `concatenate([a, b], axis=-1)`: all dimensions except
the channel axis must match exactly; channels add up. -/
def concatShape (o1 o2 : Option Shape3) : Option Shape3 :=
  o1.bind fun a => o2.bind fun b =>
    if a.h = b.h ∧ a.w = b.w then some ⟨a.h, a.w, a.c + b.c⟩ else none

/-- Append a node to the graph; its id is its index in the node list. -/
def pushNode (s : BuildState) (n : Node) : BuildState × Nat :=
  ({ s with nodes := s.nodes ++ [n] }, s.nodes.length)

/-- Declare `Input(sh)`. -/
def applyInput (s : BuildState) (sh : Shape3) : BuildState × Tensor :=
  let r := pushNode s { op := .input sh, inputs := [] }
  (r.1, { id := r.2, shape := some sh })

/-- Declare `ELU()(x)` (shape preserving). -/
def applyELU (s : BuildState) (x : Tensor) : BuildState × Tensor :=
  let r := pushNode s { op := .elu, inputs := [x.id] }
  (r.1, { id := r.2, shape := x.shape })

/-- Declare `Conv2D(filters, (kh, kw), strides=(s1, s2), padding, name)(x)`. -/
def applyConv2D (s : BuildState) (filters kh kw s1 s2 : Nat) (pad : Padding)
    (nm : Option String) (x : Tensor) : BuildState × Tensor :=
  let r := pushNode s { op := .conv2d filters kh kw s1 s2 pad nm, inputs := [x.id] }
  (r.1, { id := r.2, shape := convShape filters kh kw s1 s2 pad x.shape })

/-- Declare `Dropout(rate)(x)` (shape preserving). -/
def applyDropout (s : BuildState) (rate : ℚ) (x : Tensor) : BuildState × Tensor :=
  let r := pushNode s { op := .dropout rate, inputs := [x.id] }
  (r.1, { id := r.2, shape := x.shape })

/-- Declare `Lambda(lambda v: v * factor)(x)` (shape preserving). -/
def applyLambdaScale (s : BuildState) (factor : ℚ) (x : Tensor) : BuildState × Tensor :=
  let r := pushNode s { op := .lambdaScale factor, inputs := [x.id] }
  (r.1, { id := r.2, shape := x.shape })

/-- Declare `Add()([x, y])`. -/
def applyAdd (s : BuildState) (x y : Tensor) : BuildState × Tensor :=
  let r := pushNode s { op := .add, inputs := [x.id, y.id] }
  (r.1, { id := r.2, shape := addShape x.shape y.shape })

/-- Declare `AveragePooling2D((ph, pw), strides=(s1, s2), padding)(x)`
(Keras defaults `strides` to `pool_size` when it is `None`). -/
def applyAveragePooling2D (s : BuildState) (ph pw s1 s2 : Nat) (pad : Padding)
    (x : Tensor) : BuildState × Tensor :=
  let r := pushNode s { op := .averagePooling2d ph pw s1 s2 pad, inputs := [x.id] }
  (r.1, { id := r.2, shape := poolShape ph pw s1 s2 pad x.shape })

/-- Declare `UpSampling2D(size=(uh, uw), interpolation)(x)`. -/
def applyUpSampling2D (s : BuildState) (uh uw : Nat) (interpolation : String)
    (x : Tensor) : BuildState × Tensor :=
  let r := pushNode s { op := .upSampling2d uh uw interpolation, inputs := [x.id] }
  (r.1, { id := r.2, shape := upsampleShape uh uw x.shape })

/-- Declare `concatenate([x, y], axis)`. -/
def applyConcat (s : BuildState) (x y : Tensor) (axis : Int) : BuildState × Tensor :=
  let r := pushNode s { op := .concat axis, inputs := [x.id, y.id] }
  (r.1, { id := r.2, shape := concatShape x.shape y.shape })

/-- The residual block of `seg_n.py` (lines 29-66): ELU - Conv 3x3 (`same`,
named `res_<stage>_branch_2_a`) - Dropout 0.2 - ELU - Conv 3x3 (`same`,
named `res_<stage>_branch_2_b`) - Lambda scaling by 0.3 - Add with the
shortcut - final Conv 1x1 with `channels` filters (Keras defaults: padding
`valid`, strides (1, 1)). -/
def residual_block (s : BuildState) (X : Tensor) (filters : Nat × Nat)
    (channels : Nat) (stage : Nat) : BuildState × Tensor :=
  let X_shortcut := X
  let F1 := filters.1
  let F2 := filters.2
  let conv_base_name := "res_" ++ toString stage ++ "_branch_"
  let scaling_factor : ℚ := 3 / 10
  let r1 := applyELU s X
  let r2 := applyConv2D r1.1 F1 3 3 1 1 .same (some (conv_base_name ++ "2_a")) r1.2
  let r3 := applyDropout r2.1 (1 / 5) r2.2
  let r4 := applyELU r3.1 r3.2
  let r5 := applyConv2D r4.1 F2 3 3 1 1 .same (some (conv_base_name ++ "2_b")) r4.2
  let r6 := applyLambdaScale r5.1 scaling_factor r5.2
  let r7 := applyAdd r6.1 r6.2 X_shortcut
  let r8 := applyConv2D r7.1 channels 1 1 1 1 .valid none r7.2
  r8

/-- Reading of the glossary sentence, for comparison with the code: a
residual block whose OUTPUT IS the sum `input + 0.3 * F(input)` itself:
the same branch (ELU - Conv 3x3 - Dropout - ELU - Conv 3x3, scaled by
0.3) added to the shortcut, with nothing after the addition. -/
def residual_block_sum_spec (s : BuildState) (X : Tensor) (filters : Nat × Nat)
    (channels : Nat) (stage : Nat) : BuildState × Tensor :=
  let X_shortcut := X
  let F1 := filters.1
  let F2 := filters.2
  let conv_base_name := "res_" ++ toString stage ++ "_branch_"
  let scaling_factor : ℚ := 3 / 10
  let r1 := applyELU s X
  let r2 := applyConv2D r1.1 F1 3 3 1 1 .same (some (conv_base_name ++ "2_a")) r1.2
  let r3 := applyDropout r2.1 (1 / 5) r2.2
  let r4 := applyELU r3.1 r3.2
  let r5 := applyConv2D r4.1 F2 3 3 1 1 .same (some (conv_base_name ++ "2_b")) r4.2
  let r6 := applyLambdaScale r5.1 scaling_factor r5.2
  let r7 := applyAdd r6.1 r6.2 X_shortcut
  let _ := channels
  r7

/-- The cell detector network of `seg_n.py` (lines 68-120), layer by layer
in source order. -/
def cell_detector (s : BuildState) (input_shape : Shape3 := ⟨128, 128, 3⟩) :
    BuildState × NetModel :=
  let ri := applyInput s input_shape
  let input_layer := ri.2
  let a1 := applyConv2D ri.1 32 3 3 1 1 .same none input_layer
  let b1 := residual_block a1.1 a1.2 (32, 32) 32 1
  let res_out_1 := b1.2
  let a2 := applyConv2D b1.1 64 3 3 1 1 .same none res_out_1
  -- DownSampling block 1
  let p1 := applyAveragePooling2D a2.1 2 2 2 2 .valid a2.2
  let b2 := residual_block p1.1 p1.2 (64, 64) 64 2
  let res_out_2 := b2.2
  let a3 := applyConv2D b2.1 128 3 3 1 1 .same none res_out_2
  -- DownSampling block 2
  let p2 := applyAveragePooling2D a3.1 2 2 2 2 .valid a3.2
  let b3 := residual_block p2.1 p2.2 (128, 128) 128 3
  let res_out_3 := b3.2
  let a4 := applyConv2D b3.1 256 3 3 1 1 .same none res_out_3
  -- DownSampling block 3
  let p3 := applyAveragePooling2D a4.1 2 2 2 2 .valid a4.2
  let b4 := residual_block p3.1 p3.2 (256, 256) 256 4
  let res_out_4 := b4.2
  -- DownSampling block 4: line 91 pools X, which line 88 did NOT reassign
  -- (it only bound res_out_4), so the pooled tensor is the pool-3 output
  -- and residual block 4 feeds only the skip concatenation below
  let p4 := applyAveragePooling2D b4.1 2 2 2 2 .valid p3.2
  let b5 := residual_block p4.1 p4.2 (256, 256) 256 5
  -- UpSampling block 1
  let u1 := applyUpSampling2D b5.1 2 2 ("bilinear") b5.2
  let c1 := applyConcat u1.1 res_out_4 u1.2 (-1)
  let b6 := residual_block c1.1 c1.2 (512, 512) 256 6
  -- UpSampling block 2
  let u2 := applyUpSampling2D b6.1 2 2 ("bilinear") b6.2
  let c2 := applyConcat u2.1 res_out_3 u2.2 (-1)
  let b7 := residual_block c2.1 c2.2 (384, 384) 128 7
  -- UpSampling block 3
  let u3 := applyUpSampling2D b7.1 2 2 ("bilinear") b7.2
  let c3 := applyConcat u3.1 res_out_2 u3.2 (-1)
  let b8 := residual_block c3.1 c3.2 (192, 192) 64 8
  -- UpSampling block 4
  let u4 := applyUpSampling2D b8.1 2 2 ("bilinear") b8.2
  let c4 := applyConcat u4.1 res_out_1 u4.2 (-1)
  let b9 := residual_block c4.1 c4.2 (96, 96) 32 9
  -- Conv to output map
  let fin := applyConv2D b9.1 1 3 3 1 1 .same none b9.2
  (fin.1, { inputId := input_layer.id, inputShape := input_shape,
            output := fin.2, name := "CellDetector" })

/-- Applying a built model to a tensor of the given shape: the argument
must match the model's declared input shape; the result has the model's
output shape. -/
def modelApply (m : NetModel) (o : Option Shape3) : Option Shape3 :=
  o.bind fun a => if a = m.inputShape then m.output.shape else none

/-- The `__main__` smoke test (lines 122-155), with the two numeric values
actually printed abstracted as strings (the test never inspects them):
session 1 feeds a `[5, 128, 128, 3]` placeholder through `residual_block`
with `filters=[3, 3], channels=3, stage=1`; session 2 builds
`cell_detector()` and applies it to the same placeholder.  A shape error
in either graph aborts the run (`none`); otherwise both `PASSED` lines are
printed. -/
def smoke_test (out1 out2 : String) : Option (List String) :=
  let a_prev : Tensor := { id := 0, shape := some ⟨128, 128, 3⟩ }
  let r := residual_block emptyBuild a_prev (3, 3) 3 1
  match r.2.shape with
  | none => none
  | some _ =>
    let part1 := ["Testing residual block:", "out = " ++ out1, "Test complete: PASSED"]
    let m := (cell_detector emptyBuild ⟨128, 128, 3⟩).2
    match modelApply m (some ⟨128, 128, 3⟩) with
    | none => none
    | some _ =>
      some (part1 ++ ["Testing cell detector:", "out = " ++ out2, "Test complete: PASSED"])

/-- The graph built by `cell_detector()` at the default input shape. -/
def cdDefault : BuildState × NetModel := cell_detector emptyBuild ⟨128, 128, 3⟩

/-- Nodes of the default cell detector graph. -/
def cdDefaultNodes : List Node := cdDefault.1.nodes

/-- Model object of the default cell detector graph. -/
def cdDefaultModel : NetModel := cdDefault.2

/-- Shape of one node given the already inferred shapes of its inputs. -/
def applyOpShape (op : LayerOp) (ins : List (Option Shape3)) : Option Shape3 :=
  match op, ins with
  | .input sh, _ => some sh
  | .elu, [o] => o
  | .conv2d f kh kw s1 s2 p _, [o] => convShape f kh kw s1 s2 p o
  | .dropout _, [o] => o
  | .lambdaScale _, [o] => o
  | .add, [a, b] => addShape a b
  | .averagePooling2d ph pw s1 s2 p, [o] => poolShape ph pw s1 s2 p o
  | .upSampling2d uh uw _, [o] => upsampleShape uh uw o
  | .concat _, [a, b] => concatShape a b
  | _, _ => none

/-- Shape inference over a declared graph, node by node (a node's inputs
always precede it). -/
def inferShapes (g : List Node) : List (Option Shape3) :=
  g.foldl
    (fun acc n =>
      acc ++ [applyOpShape n.op (n.inputs.map fun i => (acc.get? i).getD none)])
    []

/-- Shape recorded for node `i` (`none` when out of range). -/
def shapeAtIdx (sh : List (Option Shape3)) (i : Nat) : Option Shape3 :=
  (sh.get? i).getD none

/-- Spatial size of an inferred shape. -/
def spatialOf : Option Shape3 → Option (Nat × Nat)
  | some a => some (a.h, a.w)
  | none => none

/-- Channel count of an inferred shape. -/
def channelsOf : Option Shape3 → Option Nat
  | some a => some a.c
  | none => none

/-- First input id of a node (unary layers have exactly one). -/
def unaryIn (n : Node) : Nat := (n.inputs.get? 0).getD 0

/-- Second input id of a node (binary layers have exactly two). -/
def secondIn (n : Node) : Nat := (n.inputs.get? 1).getD 0

/-- Names carried by the named Conv2D layers of a graph, in declaration
order. -/
def convNamesOf (g : List Node) : List String :=
  g.foldr
    (fun n acc =>
      match n.op with
      | .conv2d _ _ _ _ _ _ (some nm) => nm :: acc
      | _ => acc)
    []

/-- Input-id lists of the `concatenate` nodes of a graph, in order. -/
def concatInputsOf (g : List Node) : List (List Nat) :=
  g.foldr
    (fun n acc =>
      match n.op with
      | .concat _ => n.inputs :: acc
      | _ => acc)
    []

/-- Ids of the `UpSampling2D` nodes of a graph, in order. -/
def upsampleIdsOf (g : List Node) : List Nat :=
  g.enum.foldr
    (fun p acc =>
      match p.2.op with
      | .upSampling2d _ _ _ => p.1 :: acc
      | _ => acc)
    []

/-- For each `AveragePooling2D` node: spatial size of its input and of its
output. -/
def poolSpatialPairs (g : List Node) : List (Option (Nat × Nat) × Option (Nat × Nat)) :=
  let sh := inferShapes g
  g.enum.foldr
    (fun p acc =>
      match p.2.op with
      | .averagePooling2d _ _ _ _ _ =>
          (spatialOf (shapeAtIdx sh (unaryIn p.2)), spatialOf (shapeAtIdx sh p.1)) :: acc
      | _ => acc)
    []

/-- For each `UpSampling2D` node: spatial size of its input and of its
output. -/
def upsampleSpatialPairs (g : List Node) : List (Option (Nat × Nat) × Option (Nat × Nat)) :=
  let sh := inferShapes g
  g.enum.foldr
    (fun p acc =>
      match p.2.op with
      | .upSampling2d _ _ _ =>
          (spatialOf (shapeAtIdx sh (unaryIn p.2)), spatialOf (shapeAtIdx sh p.1)) :: acc
      | _ => acc)
    []

/-- For each `concatenate` node: spatial sizes of its two inputs. -/
def concatSpatialPairs (g : List Node) : List (Option (Nat × Nat) × Option (Nat × Nat)) :=
  let sh := inferShapes g
  g.foldr
    (fun n acc =>
      match n.op with
      | .concat _ =>
          (spatialOf (shapeAtIdx sh (unaryIn n)), spatialOf (shapeAtIdx sh (secondIn n))) :: acc
      | _ => acc)
    []

/-- For each `Add` node: channel counts of its two inputs. -/
def addChannelPairs (g : List Node) : List (Option Nat × Option Nat) :=
  let sh := inferShapes g
  g.foldr
    (fun n acc =>
      match n.op with
      | .add =>
          (channelsOf (shapeAtIdx sh (unaryIn n)), channelsOf (shapeAtIdx sh (secondIn n))) :: acc
      | _ => acc)
    []

/-- Index of the Conv2D layer named `nm` in the graph. -/
def namedConvIdx (g : List Node) (nm : String) : Nat :=
  g.findIdx fun n =>
    match n.op with
    | .conv2d _ _ _ _ _ _ (some s) => s == nm
    | _ => false

/-- Reading of the safety sentence of claim C7, for refutation: the `Add`
of a residual block would be shape-valid ONLY when the second filter
count `F2` equals the channel count of the block input. -/
def add_requires_exact_channel_match : Prop :=
  ∀ (h w c F1 F2 channels stage : Nat),
    ((residual_block emptyBuild { id := 0, shape := some ⟨h, w, c⟩ }
        (F1, F2) channels stage).2.shape).isSome = true → F2 = c

/-- The layers a call declares, normalized relative to the state the call
started from: the new nodes, with input ids rebased to the start of the
call. -/
def declaredLayers (base : Nat) (g : List Node) : List Node :=
  (g.drop base).map fun n => { n with inputs := n.inputs.map fun i => i - base }

/-! ### Helper lemmas about the Keras shape functions -/

theorem conv_output_length_same_one (len k : Nat) :
    conv_output_length len k 1 .same = len := by
  simp [conv_output_length]

theorem conv_output_length_valid_one (len : Nat) :
    conv_output_length len 1 1 .valid = len := by
  simp [conv_output_length, Int.fdiv_eq_ediv _ (by omega : (0 : Int) ≤ 1)]

theorem conv_output_length_pool_two (len : Nat) :
    conv_output_length len 2 2 .valid = len / 2 := by
  simp only [conv_output_length]
  rw [Int.fdiv_eq_ediv]
  · omega
  · omega

theorem convShape_same_one (f kh kw : Nat) (o : Option Shape3) :
    convShape f kh kw 1 1 .same o = o.map fun a => ⟨a.h, a.w, f⟩ := by
  cases o <;> simp [convShape, conv_output_length_same_one]

theorem convShape_valid_one (f : Nat) (o : Option Shape3) :
    convShape f 1 1 1 1 .valid o = o.map fun a => ⟨a.h, a.w, f⟩ := by
  cases o <;> simp [convShape, conv_output_length_valid_one]

theorem poolShape_two (o : Option Shape3) :
    poolShape 2 2 2 2 .valid o = o.map fun a => ⟨a.h / 2, a.w / 2, a.c⟩ := by
  cases o <;> simp [poolShape, conv_output_length_pool_two]

theorem broadcastDim_self (i : Nat) : broadcastDim i i = some i := by
  unfold broadcastDim
  split_ifs <;> simp_all

theorem broadcastDim_isSome (i j : Nat) :
    (broadcastDim i j).isSome = true ↔ (i = 1 ∨ j = 1 ∨ i = j) := by
  unfold broadcastDim
  split_ifs <;> simp_all

theorem addShape_self (o : Option Shape3) : addShape o o = o := by
  cases o with
  | none => rfl
  | some a => simp [addShape, broadcastDim_self]

theorem convShape_channels (f kh kw s1 s2 : Nat) (p : Padding) (o : Option Shape3)
    (sb : Shape3) (hsb : convShape f kh kw s1 s2 p o = some sb) : sb.c = f := by
  cases o with
  | none => simp [convShape] at hsb
  | some a =>
    simp [convShape] at hsb
    rw [← hsb]

theorem option_bind_ite {α β : Type} (c : Prop) [Decidable c] (a b : Option α)
    (f : α → Option β) :
    (if c then a else b).bind f = if c then a.bind f else b.bind f := by
  split_ifs <;> rfl

theorem option_map_ite {α β : Type} (c : Prop) [Decidable c] (a b : Option α) (f : α → β) :
    (if c then a else b).map f = if c then a.map f else b.map f := by
  split_ifs <;> rfl

/-! ### Claim theorems -/

/-- C1 (counterexample): the claim reads `residual_block` as returning the
sum `X + 0.3 * F(X)` itself.  At the smoke test's own configuration
(input of shape 128x128x3, `filters=[3, 3], channels=3, stage=1`) the
declared block differs from that reading: the sub-network whose output is
the bare scaled sum (`residual_block_sum_spec`) is not what the code
declares, and the tensor the code returns is produced by a 1x1 Conv2D
layer, not by the Add layer. -/
theorem residual_block_not_bare_sum :
    (residual_block emptyBuild { id := 0, shape := some ⟨128, 128, 3⟩ } (3, 3) 3 1
       ≠ residual_block_sum_spec emptyBuild { id := 0, shape := some ⟨128, 128, 3⟩ } (3, 3) 3 1)
  ∧ (((residual_block emptyBuild { id := 0, shape := some ⟨128, 128, 3⟩ } (3, 3) 3 1).1.nodes.get?
        (residual_block emptyBuild { id := 0, shape := some ⟨128, 128, 3⟩ } (3, 3) 3 1).2.id).map
          Node.op
      = some (.conv2d 3 1 1 1 1 .valid none)) := by
  constructor
  · exact fun h => absurd (congrArg (fun r => r.2.id) h) (by decide)
  · decide

/-- C1 (amended): `residual_block` declares the residual branch F
(ELU - Conv 3x3 - Dropout - ELU - Conv 3x3), scales it by 0.3 and adds the
shortcut exactly as the spec sentence says, but the block's output is a
final 1x1 Conv2D with `channels` filters applied AFTER that addition:
the code's graph is the spec-sentence graph (`residual_block_sum_spec`,
whose nodes are listed explicitly here, ending in the Add of the scaled
branch and `X`) followed by one extra Conv2D node reading the sum. -/
theorem residual_block_is_projected_sum (s : BuildState) (X : Tensor)
    (F1 F2 channels stage : Nat) :
    ((residual_block s X (F1, F2) channels stage).1.nodes
       = (residual_block_sum_spec s X (F1, F2) channels stage).1.nodes
         ++ [{ op := .conv2d channels 1 1 1 1 .valid none,
               inputs := [(residual_block_sum_spec s X (F1, F2) channels stage).2.id] }])
  ∧ ((residual_block_sum_spec s X (F1, F2) channels stage).1.nodes
       = s.nodes
         ++ [{ op := .elu, inputs := [X.id] },
             { op := .conv2d F1 3 3 1 1 .same
                 (some ("res_" ++ toString stage ++ "_branch_" ++ "2_a")),
               inputs := [s.nodes.length] },
             { op := .dropout (1 / 5), inputs := [s.nodes.length + 1] },
             { op := .elu, inputs := [s.nodes.length + 2] },
             { op := .conv2d F2 3 3 1 1 .same
                 (some ("res_" ++ toString stage ++ "_branch_" ++ "2_b")),
               inputs := [s.nodes.length + 3] },
             { op := .lambdaScale (3 / 10), inputs := [s.nodes.length + 4] },
             { op := .add, inputs := [s.nodes.length + 5, X.id] }])
  ∧ (residual_block_sum_spec s X (F1, F2) channels stage).2.id = s.nodes.length + 6
  ∧ (residual_block s X (F1, F2) channels stage).2.id = s.nodes.length + 7 := by
  refine ⟨?_, ?_, ?_, ?_⟩ <;>
    simp +arith [residual_block, residual_block_sum_spec, applyELU, applyConv2D,
      applyDropout, applyLambdaScale, applyAdd, pushNode, List.append_assoc]

/-- C2: at the default input shape (128, 128, 3) the model input is
128x128x3, the output shape is 128x128 with exactly 1 channel, and the
last declared layer is the final 3x3 `same`-padding Conv2D with
`filters=1`: the decoder fully restores the input resolution and the
segmentation map is single-channel. -/
theorem cell_detector_default_output_shape :
    cdDefaultModel.inputShape = ⟨128, 128, 3⟩
  ∧ cdDefaultModel.output.shape = some ⟨128, 128, 1⟩
  ∧ cdDefaultNodes.get? 89 = some { op := .conv2d 1 3 3 1 1 .same none, inputs := [88] }
  ∧ cdDefaultNodes.length = 90 := by
  refine ⟨rfl, by decide, by decide, by decide⟩

/-- C3: in the default graph every AveragePooling2D (pool size (2, 2),
`valid`) halves both spatial dimensions and every UpSampling2D (size
(2, 2)) doubles them - the generic shape rules are stated first - and
concretely the downsampling path runs 128 -> 64 -> 32 -> 16 -> 8 while
the four concatenations join tensors of equal spatial resolution at
16, 32, 64 and 128. -/
theorem cell_detector_resolution_ladder :
    (∀ (h w c : Nat),
        poolShape 2 2 2 2 .valid (some ⟨h, w, c⟩) = some ⟨h / 2, w / 2, c⟩
      ∧ upsampleShape 2 2 (some ⟨h, w, c⟩) = some ⟨h * 2, w * 2, c⟩)
  ∧ poolSpatialPairs cdDefaultNodes
      = [(some (128, 128), some (64, 64)), (some (64, 64), some (32, 32)),
         (some (32, 32), some (16, 16)), (some (16, 16), some (8, 8))]
  ∧ upsampleSpatialPairs cdDefaultNodes
      = [(some (8, 8), some (16, 16)), (some (16, 16), some (32, 32)),
         (some (32, 32), some (64, 64)), (some (64, 64), some (128, 128))]
  ∧ concatSpatialPairs cdDefaultNodes
      = [(some (16, 16), some (16, 16)), (some (32, 32), some (32, 32)),
         (some (64, 64), some (64, 64)), (some (128, 128), some (128, 128))] := by
  refine ⟨fun h w c => ⟨by simp [poolShape_two], by simp [upsampleShape]⟩,
    by decide, by decide, by decide⟩

/-- C4: the default graph instantiates `residual_block` exactly nine
times with stage indices 1 through 9 (the 18 named branch convolutions
appear in that order and no others), stages 1-5 lie before the first
UpSampling2D node (id 49) and stages 6-9 after it, and the four
concatenations take as first argument the saved encoder outputs
`res_out_4` (node 39), `res_out_3` (29), `res_out_2` (19), `res_out_1`
(9) - each being the 1x1 convolution that ends its residual block, right
after that block's Add node - and as second argument the preceding
upsampled decoder feature (nodes 49, 59, 69, 79).  One wiring quirk of
the source is recorded explicitly: the fourth pooling (node 40) consumes
the pool-3 output (node 31), not `res_out_4`, because line 88 binds
`res_out_4` without reassigning `X`; block 4's output therefore feeds
only its skip concatenation. -/
theorem cell_detector_nine_residual_blocks :
    convNamesOf cdDefaultNodes
      = ["res_1_branch_2_a", "res_1_branch_2_b", "res_2_branch_2_a", "res_2_branch_2_b",
         "res_3_branch_2_a", "res_3_branch_2_b", "res_4_branch_2_a", "res_4_branch_2_b",
         "res_5_branch_2_a", "res_5_branch_2_b", "res_6_branch_2_a", "res_6_branch_2_b",
         "res_7_branch_2_a", "res_7_branch_2_b", "res_8_branch_2_a", "res_8_branch_2_b",
         "res_9_branch_2_a", "res_9_branch_2_b"]
  ∧ concatInputsOf cdDefaultNodes = [[39, 49], [29, 59], [19, 69], [9, 79]]
  ∧ cdDefaultNodes.get? 39 = some { op := .conv2d 256 1 1 1 1 .valid none, inputs := [38] }
  ∧ cdDefaultNodes.get? 29 = some { op := .conv2d 128 1 1 1 1 .valid none, inputs := [28] }
  ∧ cdDefaultNodes.get? 19 = some { op := .conv2d 64 1 1 1 1 .valid none, inputs := [18] }
  ∧ cdDefaultNodes.get? 9 = some { op := .conv2d 32 1 1 1 1 .valid none, inputs := [8] }
  ∧ (cdDefaultNodes.get? 38).map Node.op = some .add
  ∧ (cdDefaultNodes.get? 28).map Node.op = some .add
  ∧ (cdDefaultNodes.get? 18).map Node.op = some .add
  ∧ (cdDefaultNodes.get? 8).map Node.op = some .add
  ∧ upsampleIdsOf cdDefaultNodes = [49, 59, 69, 79]
  ∧ namedConvIdx cdDefaultNodes ("res_5_branch_2_a") < 49
  ∧ 49 < namedConvIdx cdDefaultNodes ("res_6_branch_2_a")
  ∧ cdDefaultNodes.get? 40 = some { op := .averagePooling2d 2 2 2 2 .valid, inputs := [31] }
  ∧ (cdDefaultNodes.get? 31).map Node.op = some (.averagePooling2d 2 2 2 2 .valid) := by
  decide

/-- C5: the smoke test builds `residual_block` (filters [3, 3],
channels 3) and the `cell_detector` model on the 128x128x3 placeholder,
both shape-check, and since no output value is ever inspected (the
printed values `out1`, `out2` are arbitrary), the run prints both
`Test complete: PASSED` lines whenever no exception is raised. -/
theorem smoke_test_passes (out1 out2 : String) :
    smoke_test out1 out2
      = some ["Testing residual block:", "out = " ++ out1, "Test complete: PASSED",
              "Testing cell detector:", "out = " ++ out2, "Test complete: PASSED"] := by
  rfl

set_option maxHeartbeats 2000000 in
set_option maxRecDepth 8000 in
/-- C6: for every input shape (H, W, C) the graph declared by
`cell_detector` is shape-consistent (its output shape is inferred, rather
than a shape error) if and only if H and W are both divisible by 16:
after the four `valid` 2x2 average-poolings and four 2x2 upsamplings,
each of the four concatenations joins tensors of equal spatial size
exactly under that condition; otherwise construction fails.  The default
(128, 128, 3) satisfies the condition. -/
theorem cell_detector_shape_consistent_iff :
    (∀ (H W C : Nat),
        ((cell_detector emptyBuild ⟨H, W, C⟩).2.output.shape).isSome = true
          ↔ (16 ∣ H ∧ 16 ∣ W))
  ∧ ((cell_detector emptyBuild ⟨128, 128, 3⟩).2.output.shape).isSome = true := by
  refine ⟨fun H W C => ?_, by decide⟩
  simp only [cell_detector, residual_block, applyInput, applyELU, applyConv2D, applyDropout,
    applyLambdaScale, applyAdd, applyAveragePooling2D, applyUpSampling2D, applyConcat,
    pushNode, convShape_same_one, convShape_valid_one, poolShape_two, upsampleShape,
    concatShape, addShape_self, option_bind_ite, option_map_ite, Option.map_some',
    Option.some_bind, Option.map_none', Option.none_bind]
  split_ifs <;> simp <;> omega

/-- C7 (counterexample): the claim that the residual block's `Add` is
shape-valid ONLY when the second filter count F2 equals the channel count
of the block input is refuted by Keras elementwise broadcasting: with
input channels c = 3 and filters [1, 1] (so F2 = 1 and F2 differs from c)
the whole block still shape-checks, because a dimension of 1 broadcasts
against 3. -/
theorem add_requires_exact_channel_match_refuted : ¬ add_requires_exact_channel_match := by
  intro hmatch
  exact absurd (hmatch 4 4 3 1 1 3 1 (by decide)) (by decide)

/-- C7 (amended): the residual block's `Add` is shape-valid exactly when
F2 and the input channel count c are broadcast-compatible (F2 = c, or
F2 = 1, or c = 1); the block's output channel count always equals the
`channels` argument, enforced by the final 1x1 Conv2D after the addition;
and every one of the nine `Add` nodes in the default `cell_detector`
graph joins inputs of exactly equal channel counts (stage 6 for instance:
the 256 + 256 = 512 concatenated channels are matched by filters
[512, 512]), so the shape-error branch is unreachable there. -/
theorem residual_block_add_broadcast :
    (∀ (h w c F1 F2 channels stage i : Nat) (s : BuildState),
        (((residual_block s { id := i, shape := some ⟨h, w, c⟩ } (F1, F2) channels stage).2.shape).isSome
            = true)
          ↔ (F2 = c ∨ F2 = 1 ∨ c = 1))
  ∧ (∀ (s : BuildState) (X : Tensor) (F1 F2 channels stage : Nat) (sb : Shape3),
        (residual_block s X (F1, F2) channels stage).2.shape = some sb → sb.c = channels)
  ∧ addChannelPairs cdDefaultNodes
      = [(some 32, some 32), (some 64, some 64), (some 128, some 128), (some 256, some 256),
         (some 256, some 256), (some 512, some 512), (some 384, some 384), (some 192, some 192),
         (some 96, some 96)] := by
  refine ⟨?_, ?_, by decide⟩
  · intro h w c F1 F2 channels stage i s
    simp [residual_block, applyELU, applyConv2D, applyDropout, applyLambdaScale, applyAdd,
      pushNode, convShape_same_one, convShape_valid_one, addShape, broadcastDim_self,
      broadcastDim]
    split_ifs <;> simp_all
  · intro s X F1 F2 channels stage sb hsb
    exact convShape_channels channels 1 1 1 1 .valid _ sb hsb

/-- Witness for C7's amended theorem: instantiating its channel-count
part at a concrete block (input channels 3, filters [3, 3], channels 5)
whose output shape evaluates to `some (4, 4, 5)`. -/
theorem residual_block_add_broadcast_witness : Shape3.c ⟨4, 4, 5⟩ = 5 :=
  residual_block_add_broadcast.2.1 emptyBuild { id := 0, shape := some ⟨4, 4, 3⟩ } 3 3 5 1
    ⟨4, 4, 5⟩ (by decide)

/-- C8: the module installs no handler anywhere: in the embedding a
failure is a `none` shape, and every layer construct - each unary layer,
the binary `Add` and `concatenate`, and the whole `residual_block` -
propagates it unchanged to its consumer; no construct maps a failed
input back to a successful shape. -/
theorem shape_errors_propagate :
    (∀ (s : BuildState) (x : Tensor), x.shape = none →
        (applyELU s x).2.shape = none
      ∧ (∀ (f kh kw s1 s2 : Nat) (p : Padding) (nm : Option String),
            (applyConv2D s f kh kw s1 s2 p nm x).2.shape = none)
      ∧ (∀ r : ℚ, (applyDropout s r x).2.shape = none)
      ∧ (∀ r : ℚ, (applyLambdaScale s r x).2.shape = none)
      ∧ (∀ (ph pw s1 s2 : Nat) (p : Padding),
            (applyAveragePooling2D s ph pw s1 s2 p x).2.shape = none)
      ∧ (∀ (uh uw : Nat) (it : String), (applyUpSampling2D s uh uw it x).2.shape = none))
  ∧ (∀ (s : BuildState) (x y : Tensor) (axis : Int), x.shape = none ∨ y.shape = none →
        (applyAdd s x y).2.shape = none ∧ (applyConcat s x y axis).2.shape = none)
  ∧ (∀ (s : BuildState) (x : Tensor) (F1 F2 channels stage : Nat), x.shape = none →
        (residual_block s x (F1, F2) channels stage).2.shape = none) := by
  refine ⟨?_, ?_, ?_⟩
  · intro s x hx
    refine ⟨?_, ?_, ?_, ?_, ?_, ?_⟩ <;>
      simp [applyELU, applyConv2D, applyDropout, applyLambdaScale, applyAveragePooling2D,
        applyUpSampling2D, pushNode, convShape, poolShape, upsampleShape, hx]
  · intro s x y axis hxy
    rcases hxy with hx | hy
    · cases hys : y.shape <;>
        simp [applyAdd, applyConcat, pushNode, addShape, concatShape, hx, hys]
    · cases hxs : x.shape <;>
        simp [applyAdd, applyConcat, pushNode, addShape, concatShape, hy, hxs]
  · intro s x F1 F2 channels stage hx
    simp [residual_block, applyELU, applyConv2D, applyDropout, applyLambdaScale, applyAdd,
      pushNode, convShape, addShape, hx]

/-- Witness for C8: a concrete failed tensor stays failed through ELU. -/
theorem shape_errors_propagate_witness :
    (applyELU emptyBuild { id := 0, shape := none }).2.shape = none :=
  (shape_errors_propagate.1 emptyBuild { id := 0, shape := none } rfl).1

set_option maxHeartbeats 1000000 in
set_option maxRecDepth 8000 in
/-- C9: calling `cell_detector` only declares layers and returns the
constructed model: from any ambient build state it leaves the output
stream untouched (no printing, no file I/O - the state has no other
effect channel), only appends layer nodes to the graph (the prior graph
is a prefix of the new one), and returns the model named `CellDetector`. -/
theorem cell_detector_pure_declaration (sh : Shape3) (s : BuildState) :
    (cell_detector s sh).1.printed = s.printed
  ∧ s.nodes <+: (cell_detector s sh).1.nodes
  ∧ (cell_detector s sh).2.name = "CellDetector" := by
  refine ⟨?_, ?_, rfl⟩
  · simp only [cell_detector, residual_block, applyInput, applyELU, applyConv2D, applyDropout,
      applyLambdaScale, applyAdd, applyAveragePooling2D, applyUpSampling2D, applyConcat,
      pushNode]
  · simp only [cell_detector, residual_block, applyInput, applyELU, applyConv2D, applyDropout,
      applyLambdaScale, applyAdd, applyAveragePooling2D, applyUpSampling2D, applyConcat,
      pushNode, List.append_assoc]
    exact ⟨_, rfl⟩

set_option maxHeartbeats 1000000 in
set_option maxRecDepth 8000 in
/-- C10: `cell_detector` is a deterministic graph declaration: for every
input shape, two calls starting from any two build states declare the
same layer structure - after dropping the pre-existing nodes and rebasing
input ids, the declared node lists (layer kinds with all hyperparameters
and names, and their wiring) coincide. -/
theorem cell_detector_deterministic_structure (sh : Shape3) (s1 s2 : BuildState) :
    declaredLayers s1.nodes.length (cell_detector s1 sh).1.nodes
      = declaredLayers s2.nodes.length (cell_detector s2 sh).1.nodes := by
  simp +arith [declaredLayers, cell_detector, residual_block, applyInput, applyELU,
    applyConv2D, applyDropout, applyLambdaScale, applyAdd, applyAveragePooling2D,
    applyUpSampling2D, applyConcat, pushNode, List.append_assoc, List.drop_left,
    Nat.add_sub_cancel_left]
